import Mathlib

set_option maxRecDepth 10000

/-!
Shallow embedding of the LibFS educational file system (src/LibFS.c) and
verification of the claims about it.

Modelling conventions:
* Machine `int` values are modelled as `Int`; byte values as `Nat` (< 256 by
  construction).  A disk sector is a `List Nat` of 512 bytes.
* The block-device layer (LibDisk, not part of src/) is modelled as a total
  map from sector numbers to sector contents inside the `FS` state; reads
  never fail in the model (the C error branches guarded by `Disk_Read(..) < 0`
  are therefore dead code here), and writes to out-of-range sectors are
  no-ops, mirroring the block-device contract of the spec ("returns negative
  on failure" without transferring data).
* The inode table is embedded at the record level: the C pattern
  "Disk_Read the sector containing inode n / cast at byte offset / Disk_Write
  the sector back" is embedded as reading/updating the `inodes` map at `n`.
  This is faithful as long as data-block writes never target inode-table
  sectors; every concrete state used below keeps data blocks outside the
  metadata region.
* C `while`/`for` loops are embedded as structurally recursive functions with
  an explicit fuel argument; at each call site the fuel supplied is a proved
  upper bound on the loop's trip count, so the fuel-exhausted branch is
  unreachable there.
* File names, path strings and sector payloads are byte lists (`List Nat`),
  so C `strcmp`/`strsep` become list operations; 47 is the byte of a slash.
-/

/-- Modelled from the spec: compile-time parameter SECTOR_SIZE from the
missing header LibDisk.h.  The C source hard-codes 512 in its own loops, so
512 is forced. -/
def SECTOR_SIZE : Nat := 512

/-- Modelled from the spec: compile-time parameter TOTAL_SECTORS from the
missing header LibDisk.h (spec: ≥ layout overhead + 1); fixed to 10000.
No claim below depends on the exact value. -/
def TOTAL_SECTORS : Nat := 10000

/-- Modelled from the spec: compile-time parameter MAX_FILES from the missing
header LibFS.h (spec: ≥ 1); fixed to 1000.  No claim below depends on the
exact value. -/
def MAX_FILES : Nat := 1000

/-- Modelled from the spec: MAX_SECTORS_PER_FILE from the missing header
LibFS.h; the comment in src/LibFS.c line 520 states it is 30. -/
def MAX_SECTORS_PER_FILE : Nat := 30

/-- max length of a filename including the trailing NUL (src line 81). -/
def MAX_NAME : Nat := 16

/-- max length of a path including the trailing NUL (src line 78). -/
def MAX_PATH : Nat := 256

/-- max number of open files (src line 84). -/
def MAX_OPEN_FILES : Nat := 256

/-- sector 1 starts the inode bitmap (src line 30). -/
def INODE_BITMAP_START_SECTOR : Nat := 1

/-- bytes of the inode bitmap: (MAX_FILES+7)/8 (src line 35). -/
def INODE_BITMAP_SIZE : Nat := (MAX_FILES + 7) / 8

/-- sectors of the inode bitmap (src line 36). -/
def INODE_BITMAP_SECTORS : Nat := (INODE_BITMAP_SIZE + SECTOR_SIZE - 1) / SECTOR_SIZE

/-- first sector of the sector bitmap (src line 40). -/
def SECTOR_BITMAP_START_SECTOR : Nat := INODE_BITMAP_START_SECTOR + INODE_BITMAP_SECTORS

/-- bytes of the sector bitmap: (TOTAL_SECTORS+7)/8 (src line 45). -/
def SECTOR_BITMAP_SIZE : Nat := (TOTAL_SECTORS + 7) / 8

/-- sectors of the sector bitmap (src line 46). -/
def SECTOR_BITMAP_SECTORS : Nat := (SECTOR_BITMAP_SIZE + SECTOR_SIZE - 1) / SECTOR_SIZE

/-- first sector of the inode table (src line 50). -/
def INODE_TABLE_START_SECTOR : Nat := SECTOR_BITMAP_START_SECTOR + SECTOR_BITMAP_SECTORS

/-- sizeof(inode_t) = 4 + 4 + 4*MAX_SECTORS_PER_FILE = 128 bytes, hence
SECTOR_SIZE / sizeof(inode_t) inodes per sector (src line 68). -/
def INODES_PER_SECTOR : Nat := SECTOR_SIZE / (8 + 4 * MAX_SECTORS_PER_FILE)

/-- sectors of the inode table (src line 69). -/
def INODE_TABLE_SECTORS : Nat :=
  (MAX_FILES + INODES_PER_SECTOR - 1) / INODES_PER_SECTOR

/-- first data-block sector (src line 73). -/
def DATABLOCK_START_SECTOR : Nat := INODE_TABLE_START_SECTOR + INODE_TABLE_SECTORS

/-- sizeof(dirent_t) = MAX_NAME + 4 = 20 bytes, hence SECTOR_SIZE /
sizeof(dirent_t) = 25 directory entries per sector (src line 97). -/
def DIRENTS_PER_SECTOR : Nat := SECTOR_SIZE / (MAX_NAME + 4)

/-- the process-wide error tags of LibFS.h, as listed in the spec (§7). -/
inductive Err where
  | E_GENERAL
  | E_CREATE
  | E_NO_SUCH_FILE
  | E_NO_SUCH_DIR
  | E_FILE_IN_USE
  | E_TOO_MANY_OPEN_FILES
  | E_BAD_FD
  | E_NO_SPACE
  | E_FILE_TOO_BIG
  | E_SEEK_OUT_OF_BOUNDS
  | E_BUFFER_TOO_SMALL
  | E_DIR_NOT_EMPTY
  | E_ROOT_DIR
  deriving DecidableEq, Repr

/-- inode_t (src lines 55-59): size, type (0 = file, 1 = directory) and the
list of MAX_SECTORS_PER_FILE data-sector indices. -/
structure Inode where
  size : Int
  type : Int
  data : List Int
  deriving DecidableEq, Repr

/-- open_file_t (src lines 615-619): an entry of the open-file table; an
entry with inode 0 is free. -/
structure OpenFile where
  inode : Int
  size : Int
  pos : Int
  deriving DecidableEq, Repr

/-- the state touched by the library: the simulated disk sectors, the inode
table (see the header comment for why it is embedded at record level), the
open-file table `open_files` and the global `osErrno` (`none` models the
initial 0 value, which is no error tag). -/
structure FS where
  disk : Int → List Nat
  inodes : Int → Inode
  openFiles : List OpenFile
  osErrno : Option Err

/-- an all-zero sector, as produced by calloc/memset in the source. -/
def zeroSector : List Nat := List.replicate 512 0

/-- a zeroed inode record. -/
def zeroInode : Inode := ⟨0, 0, List.replicate MAX_SECTORS_PER_FILE 0⟩

/-- a free open-file entry (all fields zero). -/
def freeEntry : OpenFile := ⟨0, 0, 0⟩

/-- Disk_Write: store a sector; out-of-range sector numbers are rejected by
the block device, so the write is a no-op there (the C callers mostly ignore
the returned failure). -/
def diskWrite (s : FS) (sec : Int) (v : List Nat) : FS :=
  if 0 ≤ sec ∧ sec < (TOTAL_SECTORS : Int) then
    { s with disk := fun i => if i = sec then v else s.disk i }
  else s

/-- assignment to the global osErrno. -/
def setErr (s : FS) (e : Err) : FS := { s with osErrno := some e }

/-- update of one inode record, embedding the C pattern of writing back the
inode-table sector that contains it. -/
def setInode (s : FS) (n : Int) (v : Inode) : FS :=
  { s with inodes := fun i => if i = n then v else s.inodes i }

/-!  Bitmap allocator (src lines 120-232).  -/

/-- one sector of `bitmap_init` output (src lines 127-158), for the value of
`nbits` current when the sector is processed.  The C branches are:
* `nbits > 512*8`: memset the whole sector to 255;
* `0 < nbits < 512*8`: memset the first `nbits/8` bytes to 255, then the loop
  at lines 142-147 repeatedly overwrites byte `nbits/8` with a single bit
  `1 << (7-beginBit)` while `mod` counts down, so the byte ends up holding
  only bit `nbits%8 - 1` (an assignment where an OR was intended); for
  `nbits % 8 = 0` the byte keeps its calloc value 0;
* otherwise (`nbits ≤ 0` or `nbits = 512*8` exactly): the calloc'd all-zero
  sector is written unchanged. -/
def initSector (nbits : Int) : List Nat :=
  if nbits > 512 * 8 then List.replicate 512 255
  else if 0 < nbits ∧ nbits < 512 * 8 then
    List.replicate (nbits.toNat / 8) 255
      ++ (if nbits.toNat % 8 = 0 then [0] else [1 <<< (8 - nbits.toNat % 8)])
      ++ List.replicate (511 - nbits.toNat / 8) 0
  else List.replicate 512 0

/-- the `nbits` value carried to the next sector by `bitmap_init`: the first
branch subtracts only 512 (line 133, where 512*8 was presumably intended),
the second sets it to 0 (line 148), the last leaves it unchanged. -/
def initNextNbits (nbits : Int) : Int :=
  if nbits > 512 * 8 then nbits - 512
  else if 0 < nbits ∧ nbits < 512 * 8 then 0
  else nbits

/-- the sector-by-sector loop of `bitmap_init` (src lines 127-161), producing
the sector contents written to sectors `start`, `start+1`, ... -/
def bitmapInitGo : Nat → Int → List (List Nat)
  | 0, _ => []
  | num + 1, nbits => initSector nbits :: bitmapInitGo num (initNextNbits nbits)

/-- bitmap_init(start, num, nbits) (src lines 120-162) as the list of `num`
sector payloads it Disk_Writes; `start` only addresses the writes. -/
def bitmap_init (num : Nat) (nbits : Int) : List (List Nat) := bitmapInitGo num nbits

/-- logical bit `i` of a stored bitmap, MSB-first within each byte: bit `i`
lives in byte `(i/8) % 512` of sector `i / 4096` and is
`(byte >> (7 - i % 8)) & 1`. -/
def bitGet (sectors : List (List Nat)) (i : Nat) : Nat :=
  (((sectors.getD (i / 4096) zeroSector).getD (i % 4096 / 8) 0) >>> (7 - i % 8)) &&& 1

/-- index of the first zero bit of a byte, MSB-first (the inner loop of
src lines 186-197); only meaningful for bytes ≠ 255. -/
def firstZeroBit (b : Nat) : Nat :=
  if b &&& 128 = 0 then 0
  else if b &&& 64 = 0 then 1
  else if b &&& 32 = 0 then 2
  else if b &&& 16 = 0 then 3
  else if b &&& 8 = 0 then 4
  else if b &&& 4 = 0 then 5
  else if b &&& 2 = 0 then 6
  else 7

/-- the sector loop of bitmap_first_unused (src lines 177-202).  Per sector:
bytes equal to 255 (char value -1, line 181) advance `position` by 8 and
consume 8 from `nbits`; at the first byte ≠ 255 the first zero bit is set,
the sector is written back and its position returned.  The outer `while`
re-checks `nbits > 0` only between sectors.  The fuel is an upper bound on
the number of sectors visited (each full sector consumes 8·512 from
`nbits`); it also cuts the infinite loop the C would enter if a sector
yielded no 255-bytes and no progress, which cannot happen for the 512-byte
sectors of this model. -/
def bitmapFuGo (start : Int) : Nat → FS → Nat → Int → Int → Int × FS
  | 0, s, _, _, _ => (-1, s)
  | fuel + 1, s, sectorIdx, nbits, position =>
    if nbits ≤ 0 then (-1, s)
    else
      let bytes := s.disk (start + (sectorIdx : Int))
      let idx := bytes.findIdx (fun b => b != 255)
      if idx < bytes.length then
        let b := bytes.getD idx 0
        let z := firstZeroBit b
        (position + 8 * idx + z,
          diskWrite s (start + (sectorIdx : Int)) (bytes.set idx (b ||| (1 <<< (7 - z)))))
      else
        bitmapFuGo start fuel s (sectorIdx + 1) (nbits - 8 * bytes.length)
          (position + 8 * bytes.length)

/-- bitmap_first_unused(start, num, nbits) (src lines 167-204).  `num` is
accepted but never used by the C code (the scan is bounded by `nbits` and by
returning at the first zero bit). -/
def bitmap_first_unused (s : FS) (start : Int) (num : Int) (nbits : Int) : Int × FS :=
  bitmapFuGo start (nbits.toNat + 1) s 0 nbits 0

/-- bitmap_reset(start, num, ibit) (src lines 208-232).  The C computes
`Sector = ibit / (512*8)`, `bit = ibit % 8`, `beginByte = ibit / 512` (the
byte index is wrong: `(ibit % 4096) / 8` was intended, but we embed what is
written), then the loop clears bit `7 - (ibit % 8)` of byte `ibit / 512` of
that sector and writes it back, returning 0.  For a negative `ibit` the loop
counter never reaches 0 and the function returns -1 without writing. -/
def bitmap_reset (s : FS) (start : Int) (num : Int) (ibit : Int) : Int × FS :=
  if ibit < 0 then (-1, s)
  else
    let i := ibit.toNat
    let sec := start + ((i / 4096 : Nat) : Int)
    let bytes := s.disk sec
    let bIdx := i / 512
    let b := bytes.getD bIdx 0
    (0, diskWrite s sec (bytes.set bIdx (b &&& (255 - (1 <<< (7 - i % 8))))))

/-!  Filename legality and path resolution (src lines 238-373).  -/

/-- a byte acceptable in a file name: ASCII digit, letter, '.', '-' or '_'
(src line 249). -/
def legalChar (c : Nat) : Bool :=
  (48 ≤ c && c ≤ 57) || (65 ≤ c && c ≤ 90) || (97 ≤ c && c ≤ 122)
    || c == 46 || c == 45 || c == 95

/-- illegal_filename (src lines 238-256): true when the name is longer than
MAX_NAME-1 bytes or contains a byte outside the legal set.  The empty name is
accepted here, matching the C (its callers skip empty path components before
calling). -/
def illegal_filename (name : List Nat) : Bool :=
  decide (name.length > MAX_NAME - 1) || name.any (fun c => !(legalChar c))

/-- split a byte string on '/' (byte 47), keeping empty components, as the
strsep loop of follow_path produces them ("a//b" gives "a", "", "b"; the
empty string gives one empty component). -/
def splitSlash : List Nat → List (List Nat)
  | [] => [[]]
  | c :: rest =>
    if c = 47 then [] :: splitSlash rest
    else
      match splitSlash rest with
      | [] => [[c]]
      | t :: ts => (c :: t) :: ts

/-- the NUL-terminated content of a byte buffer, as strcmp sees it. -/
def cstr (bs : List Nat) : List Nat := bs.takeWhile (fun b => b != 0)

/-- two's-complement decoding of 4 little-endian bytes into a C int, the
effect of reading the `inode` field of a dirent_t through the struct cast. -/
def decodeI32 (bs : List Nat) : Int :=
  let n := bs.getD 0 0 + 256 * bs.getD 1 0 + 65536 * bs.getD 2 0
    + 16777216 * bs.getD 3 0
  if n < 2147483648 then (n : Int) else (n : Int) - 4294967296

/-- the fname bytes of directory entry `i` of a dirent sector
(`((dirent_t*)buf)[i].fname`, 20-byte records, 16-byte names). -/
def direntFname (bytes : List Nat) (i : Nat) : List Nat :=
  (bytes.drop (20 * i)).take 16

/-- the inode field of directory entry `i` of a dirent sector. -/
def direntInodeNum (bytes : List Nat) (i : Nat) : Int :=
  decodeI32 ((bytes.drop (20 * i + 16)).take 4)

/-- the scanning loop of find_child_inode (src lines 280-301): while
`nentries > 0`, load dirent sector `parent.data[idx]` and compare the entries
with index `i ≤ nentries` (the C breaks at `i > nentries`, one entry beyond
the live ones) against `fname` by strcmp; return the matching entry's inode,
else continue with `nentries - DIRENTS_PER_SECTOR`.  The fuel is an upper
bound on the trip count (`nentries` shrinks by 25 each round), so the 0-fuel
branch is unreachable for the fuel passed by `find_child_inode`. -/
def fciGo (s : FS) (parent : Inode) (fname : List Nat) :
    Nat → Int → Nat → Int
  | 0, _, _ => -1
  | fuel + 1, nentries, idx =>
    if nentries ≤ 0 then -1
    else
      let bytes := s.disk (parent.data.getD idx 0)
      match (List.range DIRENTS_PER_SECTOR).find?
          (fun (i : Nat) => decide ((i : Int) ≤ nentries)
            && (cstr (direntFname bytes i) == fname)) with
      | some i => direntInodeNum bytes i
      | none => fciGo s parent fname fuel (nentries - (DIRENTS_PER_SECTOR : Int)) (idx + 1)

/-- find_child_inode (src lines 266-304): look `fname` up in the directory
`parent_inode`; -1 when absent, -2 when the parent is not a directory (the
Disk_Read-failure -2 paths are dead in this model).  The single-sector inode
cache of the C only affects which sector is re-read, not the result, so it
has no counterpart here. -/
def find_child_inode (s : FS) (parent_inode : Int) (fname : List Nat) : Int :=
  let parent := s.inodes parent_inode
  if parent.type ≠ 1 then -2
  else fciGo s parent fname (parent.size.toNat + 1) parent.size 0

/-- result of follow_path: the returned parent inode, the value stored
through `last_inode`, and the value stored through `last_fname`.  `none`
records that the C left the caller's variable untouched (the early `return
-1` paths at lines 347, 354 and 361 run before `*last_inode` is assigned, so
callers read an uninitialized int there). -/
structure FPRes where
  ret : Int
  last : Option Int
  fname : Option (List Nat)
  deriving DecidableEq, Repr

/-- the token loop of follow_path (src lines 342-360): skip empty tokens,
fail on an illegal name, fail when the previous lookup failed (`child < 0`),
otherwise descend one component.  `none` models the early `return -1`. -/
def fpGo (s : FS) : List (List Nat) → Int → Int → Option (List Nat) →
    Option (Int × Int × Option (List Nat))
  | [], parent, child, fn => some (parent, child, fn)
  | t :: ts, parent, child, fn =>
    if t = [] then fpGo s ts parent child fn
    else if illegal_filename t then none
    else if child < 0 then none
    else fpGo s ts child (find_child_inode s child t) (some t)

/-- follow_path (src lines 315-373): walk an absolute path from the root
inode 0.  A non-absolute path (including the empty string, whose first byte
is the NUL 0) fails at once.  After the loop, `child < -1` (a -2 from
find_child_inode) is turned into failure, and the bare "/" case
(parent = -1, child = 0) is normalized to parent 0.  The copy into
`pathstore` truncates the path to MAX_PATH-1 bytes after the leading '/'. -/
def follow_path (s : FS) (path : List Nat) : FPRes :=
  if path.getD 0 0 ≠ 47 then ⟨-1, none, none⟩
  else
    match fpGo s (splitSlash ((path.drop 1).take (MAX_PATH - 1))) (-1) 0 none with
    | none => ⟨-1, none, none⟩
    | some (p, c, fn) =>
      if c < -1 then ⟨-1, none, fn⟩
      else ⟨if p = -1 ∧ c = 0 then 0 else p, some c, fn⟩

/-!  The open-file table (src lines 614-640).  -/

/-- is_file_open (src lines 623-630): true when some entry of the table
holds this inode.  Because free entries carry inode 0, the query
`is_file_open 0` answers true on any table with a free slot. -/
def is_file_open (tbl : List OpenFile) (inode : Int) : Bool :=
  tbl.any (fun e => e.inode == inode)

/-- the scan of new_file_fd, carrying the running index. -/
def newFdGo : List OpenFile → Int → Int
  | [], _ => -1
  | e :: t, i => if e.inode ≤ 0 then i else newFdGo t (i + 1)

/-- new_file_fd (src lines 633-640): index of the first table entry with
inode ≤ 0, or -1 when the table is full. -/
def new_file_fd (tbl : List OpenFile) : Int := newFdGo tbl 0

/-!  File API (src lines 835-1055).  -/

/-- File_Open (src lines 835-878).  The return value of follow_path is
discarded by the C; only `child_inode` is inspected.  On the paths where
follow_path returns early, `child_inode` keeps its uninitialized stack value,
modelled by the explicit `junk` argument. -/
def File_Open (s : FS) (path : List Nat) (junk : Int) : Int × FS :=
  let fd := new_file_fd s.openFiles
  if fd < 0 then (-1, setErr s Err.E_TOO_MANY_OPEN_FILES)
  else
    let child := (follow_path s path).last.getD junk
    if 0 ≤ child then
      if (s.inodes child).type ≠ 0 then (-1, setErr s Err.E_GENERAL)
      else
        let tbl := s.openFiles.set fd.toNat ⟨child, (s.inodes child).size, 0⟩
        (fd, { s with openFiles := tbl })
    else (-1, setErr s Err.E_NO_SUCH_FILE)

/-- the sector loop of File_Read (src lines 918-937): while fewer than `size`
bytes are copied and `node.data[beginSector]` is nonzero, copy from byte
`pos % 512` (first round) or 0 (later rounds) up to the end of the sector or
the requested size.  Note the loop is bounded only by the request size and by
a zero data pointer, never by the inode's `size` field.  Fuel: every round
copies at least one byte, so `size.toNat` rounds suffice. -/
def readGo (s : FS) (node : Inode) (size : Int) (pos : Nat) :
    Nat → Nat → Nat → List Nat → Nat × List Nat
  | 0, count, _, acc => (count, acc)
  | fuel + 1, count, beginSector, acc =>
    if (count : Int) < size ∧ node.data.getD beginSector 0 ≠ 0 then
      let temp := s.disk (node.data.getD beginSector 0)
      let beginByte := if count = 0 then pos % 512 else 0
      let chunk := min (512 - beginByte) (size.toNat - count)
      readGo s node size pos fuel (count + chunk) (beginSector + 1)
        (acc ++ (temp.drop beginByte).take chunk)
    else (count, acc)

/-- File_Read (src lines 880-942): E_BAD_FD when the entry's inode is 0
(there is no bounds check on `fd` in the C; out-of-range descriptors are
undefined behaviour there, so the claims below only use in-range ones).
Returns the byte count, the bytes placed into the caller's buffer, and the
state with `pos` advanced by the count. -/
def File_Read (s : FS) (fd : Nat) (size : Int) : Int × List Nat × FS :=
  let e := s.openFiles.getD fd freeEntry
  if e.inode = 0 then (-1, [], setErr s Err.E_BAD_FD)
  else
    let node := s.inodes e.inode
    let r := readGo s node size e.pos.toNat size.toNat 0 (e.pos.toNat / 512) []
    ((r.1 : Int), r.2,
      { s with openFiles := s.openFiles.set fd { e with pos := e.pos + (r.1 : Int) } })

/-- the sector loop of File_Write (src lines 982-1009): every round calls
bitmap_first_unused on the sector bitmap (unconditionally: even a partial
overwrite of an existing block gets a fresh sector), stores the result into
`node.data[beginSector]`, fills a calloc'd buffer from byte `pos % 512`
(first round) or 0, and Disk_Writes it to the fresh sector — a partial write
therefore zero-fills the rest of the sector rather than read-modify-write.
Fuel: every round copies at least one byte, so `size.toNat` rounds
suffice. -/
def writeGo (buf : List Nat) (size : Int) (pos : Nat) :
    Nat → Nat → Nat → Inode → FS → Nat × Inode × FS
  | 0, count, _, node, s => (count, node, s)
  | fuel + 1, count, beginSector, node, s =>
    if (count : Int) < size then
      let r := bitmap_first_unused s (SECTOR_BITMAP_START_SECTOR : Int)
        (SECTOR_BITMAP_SECTORS : Int) (SECTOR_BITMAP_SIZE : Int)
      let node1 := { node with data := node.data.set beginSector r.1 }
      let beginByte := if count = 0 then pos % 512 else 0
      let chunk := min (512 - beginByte) (size.toNat - count)
      let writeBuffer := List.replicate beginByte 0
        ++ (List.range chunk).map (fun k => buf.getD (count + k) 0)
        ++ List.replicate (512 - beginByte - chunk) 0
      writeGo buf size pos fuel (count + chunk) (beginSector + 1) node1
        (diskWrite r.2 r.1 writeBuffer)
    else (count, node, s)

/-- File_Write (src lines 945-1018): E_BAD_FD when the entry's inode is 0;
otherwise run the sector loop, then add the byte count to the open entry's
`pos` and `size` and to the inode's `size` (`size := size + count`, not
`max(size, pos)`), and persist the inode. -/
def File_Write (s : FS) (fd : Nat) (buf : List Nat) (size : Int) : Int × FS :=
  let e := s.openFiles.getD fd freeEntry
  if e.inode = 0 then (-1, setErr s Err.E_BAD_FD)
  else
    let node := s.inodes e.inode
    let r := writeGo buf size e.pos.toNat size.toNat 0 (e.pos.toNat / 512) node s
    let s1 := setInode r.2.2 e.inode { r.2.1 with size := r.2.1.size + (r.1 : Int) }
    let tbl := s1.openFiles.set fd
      { e with pos := e.pos + (r.1 : Int), size := e.size + (r.1 : Int) }
    ((r.1 : Int), { s1 with openFiles := tbl })

/-- File_Seek (src lines 1020-1036).  After the bounds test, the C writes
`if(open_files[fd].inode = 0)`: the assignment stores 0 into the entry's
inode field (freeing the descriptor) and evaluates to 0, so the E_BAD_FD
branch is never taken; the function then stores the offset into `pos` and
returns 0.  (The C performs no bounds check on `fd`.) -/
def File_Seek (s : FS) (fd : Nat) (offset : Int) : Int × FS :=
  let e := s.openFiles.getD fd freeEntry
  if offset < 0 ∨ e.size < offset then (-1, setErr s Err.E_SEEK_OUT_OF_BOUNDS)
  else (0, { s with openFiles := s.openFiles.set fd ⟨0, e.size, offset⟩ })

/-- File_Close (src lines 1038-1055): the range test is `fd < 0 || fd >
MAX_OPEN_FILES` (admitting fd = MAX_OPEN_FILES, an off-by-one the model
renders through getD's default); then entries with inode ≤ 0 give E_BAD_FD,
else the inode field is zeroed. -/
def File_Close (s : FS) (fd : Int) : Int × FS :=
  if 0 > fd ∨ fd > (MAX_OPEN_FILES : Int) then (-1, setErr s Err.E_BAD_FD)
  else
    let e := s.openFiles.getD fd.toNat freeEntry
    if e.inode ≤ 0 then (-1, setErr s Err.E_BAD_FD)
    else (0, { s with openFiles := s.openFiles.set fd.toNat { e with inode := 0 } })

/-!  Unlink (src lines 494-613, 783-790, 1078-1154).  -/

/-- the dirent-removal scan of remove_inode (src lines 574-611): over the
parent's nonzero `data[j]`, find the first entry whose inode field equals
`child_inode`, zero those 20 bytes, write the sector back, decrement the
parent's size (not below 0) and persist the parent inode, returning 0; -1
when no entry matches. -/
def riScan (parent : Inode) (parent_inode child_inode : Int) :
    List Nat → FS → Int × FS
  | [], s => (-1, s)
  | j :: rest, s =>
    let sec := parent.data.getD j 0
    if sec ≠ 0 then
      let bytes := s.disk sec
      match (List.range DIRENTS_PER_SECTOR).find?
          (fun (k : Nat) => direntInodeNum bytes k == child_inode) with
      | some k =>
        let bytes2 := bytes.take (20 * k) ++ List.replicate 20 0 ++ bytes.drop (20 * k + 20)
        let s2 := diskWrite s sec bytes2
        let parent2 := { parent with size :=
          if parent.size > 0 then parent.size - 1 else parent.size }
        (0, setInode s2 parent_inode parent2)
      | none => riScan parent parent_inode child_inode rest s
    else riScan parent parent_inode child_inode rest s

/-- remove_inode (src lines 494-613).  getInodeHelper returns a pointer into
a dead stack frame; the reads through it are modelled as reading the inode
record by value, and the later `memset(childnode, 0, ...)` (line 542) writes
only to that dead frame, so it changes nothing in this state.  The checks:
wrong type gives -3; nonzero size gives -2 for files and directories alike
(the C comments call this the directory-emptiness check, but the code runs
it before looking at the type's meaning); then the child's data-sector bits
and inode bit are cleared and the parent's dirent removed. -/
def remove_inode (s : FS) (type parent_inode child_inode : Int) : Int × FS :=
  let childnode := s.inodes child_inode
  if childnode.type ≠ type then (-3, s)
  else if childnode.size ≠ 0 then (-2, s)
  else
    let s1 := (List.range MAX_SECTORS_PER_FILE).foldl
      (fun acc i =>
        if childnode.data.getD i 0 ≠ 0 then
          (bitmap_reset acc (SECTOR_BITMAP_START_SECTOR : Int)
            (SECTOR_BITMAP_SECTORS : Int) (childnode.data.getD i 0)).2
        else acc) s
    let s2 := (bitmap_reset s1 (INODE_BITMAP_START_SECTOR : Int)
      (INODE_BITMAP_SECTORS : Int) child_inode).2
    let parent := s2.inodes parent_inode
    if parent.type ≠ 1 then (-2, s2)
    else riScan parent parent_inode child_inode (List.range MAX_SECTORS_PER_FILE) s2

/-- delete_helper (src lines 1078-1135), shared by File_Unlink and
Dir_Unlink.  `child_inode` is read uninitialized when follow_path returned
early (`junk`).  The open check runs first; then a negative child gives
E_NO_SUCH_FILE for directories and E_NO_SUCH_DIR for files (the two tags are
swapped relative to `type`'s meaning in the C).  On failure of the first
remove_inode the C calls remove_inode again (up to two more times) to decide
the error tag.  When `parent_inode < 0` with a non-negative child the C
falls off the end of the function (no return statement); that undefined
return is modelled as -1 with the state unchanged. -/
def delete_helper (s : FS) (type : Int) (path : List Nat) (junk : Int) : Int × FS :=
  let child := (follow_path s path).last.getD junk
  let parent := (follow_path s path).ret
  if is_file_open s.openFiles child then (-1, setErr s Err.E_FILE_IN_USE)
  else if child < 0 then
    (-1, setErr s (if type ≠ 0 then Err.E_NO_SUCH_FILE else Err.E_NO_SUCH_DIR))
  else if 0 ≤ parent then
    let r1 := remove_inode s type parent child
    if r1.1 = 0 then (0, r1.2)
    else
      let r2 := remove_inode r1.2 type parent child
      if r2.1 = -2 then (-1, setErr r2.2 Err.E_DIR_NOT_EMPTY)
      else
        let r3 := remove_inode r2.2 type parent child
        if r3.1 = -3 then (-1, setErr r3.2 Err.E_GENERAL)
        else (-1, setErr r3.2 Err.E_GENERAL)
  else (-1, s)

/-- File_Unlink (src lines 783-790): delete_helper with type 0. -/
def File_Unlink (s : FS) (path : List Nat) (junk : Int) : Int × FS :=
  delete_helper s 0 path junk

/-- the address of the string literal "/" inside Dir_Unlink, for the pointer
comparison below. -/
def rootLiteralAddr : Nat := 0

/-- Dir_Unlink (src lines 1141-1154).  The guard is written `path == "/"` in
C: it compares the argument POINTER with the address of the "/" literal, not
the string contents.  The model therefore carries the address `pathAddr` of
the caller's string alongside its contents; only a caller passing the very
literal (same address) trips the E_ROOT_DIR branch, while any other string
whose contents are "/" falls through to delete_helper with type 1. -/
def Dir_Unlink (s : FS) (pathAddr : Nat) (path : List Nat) (junk : Int) : Int × FS :=
  if pathAddr = rootLiteralAddr then (-1, setErr s Err.E_ROOT_DIR)
  else delete_helper s 1 path junk

/-!  Directory read (src lines 1156-1217).  -/

/-- Dir_Size (src lines 1156-1166): size of the resolved inode times
sizeof(dirent_t); 0 when the child is negative.  `junk` is the uninitialized
`child_inode` read when follow_path returns early. -/
def Dir_Size (s : FS) (path : List Nat) (junk : Int) : Int :=
  let child := (follow_path s path).last.getD junk
  if 0 ≤ child then (s.inodes child).size * 20 else 0

/-- Dir_Read (src lines 1168-1217).  After resolving the path and loading the
inode, the C checks `Dir_Size(path) > size` (E_BUFFER_TOO_SMALL), then loops
over the nonzero `data[i]` sectors reading each into a scratch buffer and
printing it — the caller's buffer is never written — and finally executes an
unconditional `return -1`.  The read-only scan has no effect on the state, so
the model goes straight to the result.  `junkA` is Dir_Read's own
uninitialized `d_inode`, `junkB` the one inside the nested Dir_Size call. -/
def Dir_Read (s : FS) (path : List Nat) (size : Int) (junkA junkB : Int) : Int × FS :=
  let d := (follow_path s path).last.getD junkA
  let _directory := s.inodes d
  if Dir_Size s path junkB > size then (-1, setErr s Err.E_BUFFER_TOO_SMALL)
  else (-1, s)

/-!  Concrete volumes and inputs used by the claim theorems.  All of them
keep data blocks at sector numbers ≥ 300, outside the metadata region
(sectors 0..254), so the record-level inode table is faithful (see the file
header).  -/

/-- the superblock sector written when formatting: OS_MAGIC 0xdeadbeef as a
little-endian int in the first four bytes (src lines 670-673). -/
def superblockSector : List Nat := [239, 190, 173, 222] ++ List.replicate 508 0

/-- the volume produced by the formatting branch of FS_Boot (src lines
666-721): magic superblock, inode bitmap initialized with 1 bit, sector
bitmap initialized with DATABLOCK_START_SECTOR bits (both through the buggy
`bitmap_init`), inode table zero except the root directory inode 0
(size 0, type 1), and a zeroed open-file table. -/
def formattedFS : FS where
  disk := fun sec =>
    if sec = 0 then superblockSector
    else if sec = 1 then (bitmap_init INODE_BITMAP_SECTORS 1).getD 0 zeroSector
    else if 2 ≤ sec ∧ sec ≤ 4 then
      (bitmap_init SECTOR_BITMAP_SECTORS (DATABLOCK_START_SECTOR : Int)).getD
        (sec - 2).toNat zeroSector
    else zeroSector
  inodes := fun n =>
    if n = 0 then ⟨0, 1, List.replicate MAX_SECTORS_PER_FILE 0⟩ else zeroInode
  openFiles := List.replicate MAX_OPEN_FILES freeEntry
  osErrno := none

/-- the path "/a" as bytes. -/
def pathA : List Nat := [47, 97]

/-- the path "/" as bytes. -/
def rootPath : List Nat := [47]

/-- the path "/z" as bytes ("z" exists on no volume below). -/
def pathZ : List Nat := [47, 122]

/-- the write buffer "hello". -/
def helloBytes : List Nat := [104, 101, 108, 108, 111]

/-- a dirent sector whose first entry is ("a", inode 1), the rest zeroed. -/
def direntSectorA : List Nat :=
  [97] ++ List.replicate 15 0 ++ [1, 0, 0, 0] ++ List.replicate 492 0

/-- a root directory with the single entry ("a", 1) stored in sector 301. -/
def rootDirInodeA : Inode := ⟨1, 1, 301 :: List.replicate 29 0⟩

/-- a consistent sector bitmap marking sectors 0..303 used (bits stored
fully, unlike `bitmap_init` output), so the next free sector is 304. -/
def bitmapSectorA : List Nat := List.replicate 38 255 ++ List.replicate 474 0

/-- a volume holding the empty file "/a" at inode 1; nothing is open. -/
def fsA : FS where
  disk := fun sec =>
    if sec = 2 then bitmapSectorA
    else if sec = 301 then direntSectorA
    else zeroSector
  inodes := fun n =>
    if n = 0 then rootDirInodeA
    else if n = 1 then ⟨0, 0, List.replicate MAX_SECTORS_PER_FILE 0⟩
    else zeroInode
  openFiles := List.replicate MAX_OPEN_FILES freeEntry
  osErrno := none

/-- the inode of a 5-byte file whose content lives in sector 304. -/
def fileInodeB : Inode := ⟨5, 0, 304 :: List.replicate 29 0⟩

/-- the sector holding "hello" followed by zeros. -/
def helloSector : List Nat := helloBytes ++ List.replicate 507 0

/-- a volume holding the 5-byte file "/a" (content "hello"); nothing is
open. -/
def fsB : FS where
  disk := fun sec =>
    if sec = 2 then List.replicate 39 255 ++ List.replicate 473 0
    else if sec = 301 then direntSectorA
    else if sec = 304 then helloSector
    else zeroSector
  inodes := fun n =>
    if n = 0 then rootDirInodeA
    else if n = 1 then fileInodeB
    else zeroInode
  openFiles := List.replicate MAX_OPEN_FILES freeEntry
  osErrno := none

/-- fsA with descriptor 0 open on inode 5 with size 10 and position 0 (the
literal open-file entry of claim C4's scenario). -/
def fsSeek : FS := { fsA with openFiles := ⟨5, 10, 0⟩ :: List.replicate 255 freeEntry }

/-- fsB with descriptor 0 open on the 5-byte file at end-of-file
(pos = size = 5), the position File_Write leaves after writing "hello". -/
def fsC : FS := { fsB with openFiles := ⟨1, 5, 5⟩ :: List.replicate 255 freeEntry }

/-- fsA with descriptor 0 already open on the file "/a" (inode 1) and 255
free slots. -/
def fsOpen1 : FS := { fsA with openFiles := ⟨1, 0, 0⟩ :: List.replicate 255 freeEntry }

/-- the C1 scenario, step 1: open "/a" on fsA (succeeds with fd 0). -/
def c1Open : Int × FS := File_Open fsA pathA 0

/-- the C1 scenario, step 2: write the 5 bytes "hello" through that fd. -/
def c1Write : Int × FS := File_Write c1Open.2 c1Open.1.toNat helloBytes 5

/-- the C1 scenario, step 3: seek back to offset 0. -/
def c1Seek : Int × FS := File_Seek c1Write.2 c1Open.1.toNat 0

/-- the C1 scenario, step 4: read 5 bytes back. -/
def c1Read : Int × List Nat × FS := File_Read c1Seek.2 c1Open.1.toNat 5

/-!  Helper lemmas.  -/

/-- getD after set at the same in-range index returns the new value. -/
theorem getD_set_self {α : Type} (v d : α) :
    ∀ (l : List α) (n : Nat), n < l.length → (l.set n v).getD n d = v := by
  intro l
  induction l with
  | nil => intro n h; simp at h
  | cons a t ih =>
    intro n h
    cases n with
    | zero => rfl
    | succ m => exact ih m (by simpa using h)

/-- the scan of new_file_fd, started at index `i`, stops at or after `i`, at
an in-range offset whose entry has inode ≤ 0, provided some entry of the
list has inode ≤ 0. -/
theorem newFdGo_finds_free : ∀ (l : List OpenFile) (i : Int),
    (∃ k, k < l.length ∧ (l.getD k freeEntry).inode ≤ 0) →
    i ≤ newFdGo l i ∧ (newFdGo l i - i).toNat < l.length ∧
      (l.getD (newFdGo l i - i).toNat freeEntry).inode ≤ 0 := by
  intro l
  induction l with
  | nil =>
    intro i h
    obtain ⟨k, hk, _⟩ := h
    simp at hk
  | cons e t ih =>
    intro i h
    by_cases he : e.inode ≤ 0
    · have hr : newFdGo (e :: t) i = i := by simp [newFdGo, he]
      rw [hr]
      refine ⟨le_refl i, ?_, ?_⟩
      · simp
      · simp [List.getD, he]
    · obtain ⟨k, hk, hfree⟩ := h
      have hk' : ∃ k, k < t.length ∧ (t.getD k freeEntry).inode ≤ 0 := by
        cases k with
        | zero =>
          simp [List.getD] at hfree
          exact absurd hfree he
        | succ m => exact ⟨m, by simpa using hk, by simpa [List.getD] using hfree⟩
      obtain ⟨h1, h2, h3⟩ := ih (i + 1) hk'
      have hr : newFdGo (e :: t) i = newFdGo t (i + 1) := by simp [newFdGo, he]
      rw [hr]
      refine ⟨by omega, by simp; omega, ?_⟩
      have hidx : (newFdGo t (i + 1) - i).toNat = (newFdGo t (i + 1) - (i + 1)).toNat + 1 := by
        omega
      rw [hidx]
      simpa [List.getD] using h3

/-- new_file_fd on a table with a free entry (inode ≤ 0) returns a
non-negative in-range index whose entry is free. -/
theorem new_file_fd_finds_free (l : List OpenFile)
    (h : ∃ k, k < l.length ∧ (l.getD k freeEntry).inode ≤ 0) :
    0 ≤ new_file_fd l ∧ (new_file_fd l).toNat < l.length ∧
      (l.getD (new_file_fd l).toNat freeEntry).inode ≤ 0 := by
  have := newFdGo_finds_free l 0 h
  simpa [new_file_fd] using this

/-!  Claim theorems.  -/

/-- C1: the claimed open/write/seek/read round-trip FAILS on the code.  On a
volume holding the empty file "/a", File_Open succeeds (fd 0) and
File_Write stores the 5 bytes "hello" on disk and returns 5; File_Seek(fd,0)
returns 0 — but its `=`-for-`==` slip zeroes the entry's inode field — so
the final File_Read returns -1 with E_BAD_FD and transfers no bytes, instead
of returning 5 with the buffer's bytes. -/
theorem c1_write_seek_read_round_trip_fails :
    c1Open.1 = 0 ∧ c1Write.1 = 5 ∧
    c1Write.2.disk 304 = helloBytes ++ List.replicate 507 0 ∧
    c1Seek.1 = 0 ∧ c1Read.1 = -1 ∧ c1Read.2.1 = [] ∧
    c1Read.2.2.osErrno = some Err.E_BAD_FD := by decide

/-- C2: File_Unlink of an existing, closed, nonzero-size regular file FAILS.
On fsB the file "/a" has type 0, size 5 and is open on no descriptor, yet
File_Unlink returns -1 with E_DIR_NOT_EMPTY: remove_inode runs its
`size != 0` emptiness test before distinguishing files from directories. -/
theorem c2_unlink_nonempty_file_rejected :
    (fsB.inodes 1).type = 0 ∧ (fsB.inodes 1).size = 5 ∧
    is_file_open fsB.openFiles 1 = false ∧
    (File_Unlink fsB pathA 0).1 = -1 ∧
    (File_Unlink fsB pathA 0).2.osErrno = some Err.E_DIR_NOT_EMPTY := by decide

/-- C3: Dir_Read on the root of a freshly formatted volume does NOT return 0.
Dir_Size("/") is 0 so the buffer is large enough, but Dir_Read never fills
the caller's buffer and ends in an unconditional `return -1`, so it yields
-1 (with no error tag set) where the claim requires 0. -/
theorem c3_dir_read_always_fails :
    Dir_Size formattedFS rootPath 0 = 0 ∧
    (Dir_Read formattedFS rootPath 512 0 0).1 = -1 ∧
    (Dir_Read formattedFS rootPath 512 0 0).2.osErrno = none := by decide

/-- C4: an in-bounds File_Seek does NOT leave the rest of the entry
unchanged.  With descriptor 0 open as ⟨inode 5, size 10, pos 0⟩,
File_Seek(0, 3) returns 0 and sets pos to 3, but the assignment in
`if(open_files[fd].inode = 0)` zeroes the inode field, so the entry becomes
⟨0, 10, 3⟩ and the descriptor is effectively closed.  The out-of-bounds
branch (offset 11 > size 10) does behave as claimed: -1,
E_SEEK_OUT_OF_BOUNDS, entry untouched. -/
theorem c4_seek_frees_descriptor :
    (fsSeek.openFiles.getD 0 freeEntry).inode = 5 ∧
    (File_Seek fsSeek 0 3).1 = 0 ∧
    (File_Seek fsSeek 0 3).2.openFiles.getD 0 freeEntry = ⟨0, 10, 3⟩ ∧
    (File_Seek fsSeek 0 11).1 = -1 ∧
    (File_Seek fsSeek 0 11).2.osErrno = some Err.E_SEEK_OUT_OF_BOUNDS ∧
    (File_Seek fsSeek 0 11).2.openFiles.getD 0 freeEntry = ⟨5, 10, 0⟩ := by decide

/-- C5: bitmap_init does NOT set exactly the first nbits bits.  For one
sector and nbits = 2 the claim requires bits 0 and 1 set; the code's
partial-byte loop overwrites the byte with each single-bit mask instead of
OR-ing, leaving only bit nbits-1 set: bit 0 comes out 0 (and bit 1 comes
out 1). -/
theorem c5_bitmap_init_wrong_prefix :
    bitGet (bitmap_init 1 2) 0 = 0 ∧ bitGet (bitmap_init 1 2) 1 = 1 := by decide

/-- C6: File_Read does NOT transfer min(n, size - pos) bytes.  With
descriptor 0 open at pos = size = 5 on the 5-byte file (one allocated data
sector), min(10, 5-5) = 0 bytes should transfer, but File_Read never
consults the inode size: it returns 10 and advances pos to 15, reading 10
stale bytes at and past end-of-file out of the allocated sector. -/
theorem c6_read_ignores_file_size :
    fsC.openFiles.getD 0 freeEntry = ⟨1, 5, 5⟩ ∧ (fsC.inodes 1).size = 5 ∧
    (File_Read fsC 0 10).1 = 10 ∧
    (File_Read fsC 0 10).2.2.openFiles.getD 0 freeEntry = ⟨1, 5, 15⟩ := by decide

/-- C7: Dir_Unlink of a caller-supplied string "/" does NOT produce
E_ROOT_DIR.  The C guard `path == "/"` compares pointers, so only the very
literal inside Dir_Unlink (address `rootLiteralAddr`) trips it; a distinct
string object with the same contents (address 1 here) falls through to
delete_helper, whose is_file_open(0) test matches the free table entries
(inode 0) and yields -1 with E_FILE_IN_USE instead. -/
theorem c7_dir_unlink_root_compares_pointers :
    (Dir_Unlink formattedFS 1 rootPath 0).1 = -1 ∧
    (Dir_Unlink formattedFS 1 rootPath 0).2.osErrno = some Err.E_FILE_IN_USE ∧
    (Dir_Unlink formattedFS rootLiteralAddr rootPath 0).2.osErrno
      = some Err.E_ROOT_DIR := by decide

/-- C8: the E_BAD_FD discipline FAILS for File_Seek.  On a freshly formatted
volume descriptor 0 is free (inode 0): File_Read, File_Write and File_Close
do return -1 with E_BAD_FD, but File_Seek(0, 0) returns 0 and sets no error,
because its fd-validity test is the assignment `open_files[fd].inode = 0`,
which never evaluates to true. -/
theorem c8_seek_accepts_free_descriptor :
    (formattedFS.openFiles.getD 0 freeEntry).inode = 0 ∧
    (File_Read formattedFS 0 5).1 = -1 ∧
    (File_Read formattedFS 0 5).2.2.osErrno = some Err.E_BAD_FD ∧
    (File_Write formattedFS 0 helloBytes 5).1 = -1 ∧
    (File_Write formattedFS 0 helloBytes 5).2.osErrno = some Err.E_BAD_FD ∧
    (File_Close formattedFS 0).1 = -1 ∧
    (File_Close formattedFS 0).2.osErrno = some Err.E_BAD_FD ∧
    (File_Seek formattedFS 0 0).1 = 0 ∧
    (File_Seek formattedFS 0 0).2.osErrno = none := by decide

/-- C9: opening a file that is already open on another descriptor is never
rejected.  If the path resolves to a regular-file inode c > 0, descriptor j
already holds c, and some table entry is free (inode ≤ 0), then File_Open
returns a non-negative descriptor different from j whose fresh entry is
⟨c, inode size, pos 0⟩.  (new_file_fd runs before resolution and never
inspects whether the inode is already open.) -/
theorem c9_reopen_always_allowed (s : FS) (path : List Nat) (junk c : Int) (j : Nat)
    (hfp : (follow_path s path).last = some c) (hc : 0 < c)
    (htype : (s.inodes c).type = 0)
    (hj : j < s.openFiles.length)
    (hjo : (s.openFiles.getD j freeEntry).inode = c)
    (hfree : ∃ k, k < s.openFiles.length ∧ (s.openFiles.getD k freeEntry).inode ≤ 0) :
    0 ≤ (File_Open s path junk).1 ∧ (File_Open s path junk).1.toNat ≠ j ∧
      (File_Open s path junk).2.openFiles.getD (File_Open s path junk).1.toNat freeEntry
        = ⟨c, (s.inodes c).size, 0⟩ := by
  obtain ⟨h0, hlt, hfr⟩ := new_file_fd_finds_free s.openFiles hfree
  have h1 : ¬ (new_file_fd s.openFiles < 0) := by omega
  have h2 : (0 : Int) ≤ c := by omega
  have h3 : ¬ ((s.inodes c).type ≠ 0) := by simp [htype]
  have heq : File_Open s path junk
      = (new_file_fd s.openFiles,
         { s with openFiles :=
             s.openFiles.set (new_file_fd s.openFiles).toNat ⟨c, (s.inodes c).size, 0⟩ }) := by
    simp [File_Open, hfp, h1, h2, h3]
  rw [heq]
  refine ⟨h0, ?_, getD_set_self _ _ _ _ hlt⟩
  intro hcontra
  rw [hcontra, hjo] at hfr
  omega

/-- witness for C9: on fsOpen1 (file "/a" of inode 1 already open on
descriptor 0, slot 1 free), a second File_Open of "/a" yields a
non-negative descriptor distinct from 0 whose entry is ⟨1, 0, 0⟩. -/
theorem c9_reopen_always_allowed_witness :
    0 ≤ (File_Open fsOpen1 pathA 0).1 ∧ (File_Open fsOpen1 pathA 0).1.toNat ≠ 0 ∧
      (File_Open fsOpen1 pathA 0).2.openFiles.getD
        (File_Open fsOpen1 pathA 0).1.toNat freeEntry
        = ⟨1, (fsOpen1.inodes 1).size, 0⟩ :=
  c9_reopen_always_allowed fsOpen1 pathA 0 1 0 (by decide) (by decide) (by decide)
    (by decide) (by decide) ⟨1, by decide, by decide⟩

/-- C10: a failed File_Open is atomic with respect to the open-file table:
whenever File_Open returns -1, the table is unchanged — the only assignment
to open_files is on the success path.  (`junk` covers even the paths where
follow_path leaves `child_inode` uninitialized.) -/
theorem c10_failed_open_leaves_table (s : FS) (path : List Nat) (junk : Int)
    (h : (File_Open s path junk).1 = -1) :
    (File_Open s path junk).2.openFiles = s.openFiles := by
  by_cases h1 : new_file_fd s.openFiles < 0
  · simp [File_Open, h1, setErr]
  · by_cases h2 : (0 : Int) ≤ (follow_path s path).last.getD junk
    · by_cases h3 : (s.inodes ((follow_path s path).last.getD junk)).type = 0
      · exfalso
        have heq : (File_Open s path junk).1 = new_file_fd s.openFiles := by
          simp [File_Open, h1, h2, h3]
        rw [heq] at h
        omega
      · simp [File_Open, h1, h2, h3, setErr]
    · simp [File_Open, h1, h2, setErr]

/-- witness for C10: File_Open of the nonexistent "/z" on a freshly
formatted volume returns -1 and leaves the open-file table unchanged. -/
theorem c10_failed_open_leaves_table_witness :
    (File_Open formattedFS pathZ 0).1 = -1 ∧
    (File_Open formattedFS pathZ 0).2.openFiles = formattedFS.openFiles :=
  ⟨by decide, c10_failed_open_leaves_table formattedFS pathZ 0 (by decide)⟩
